import Mathlib

/-!
Verification development for the HEASARC light-curve helper functions
(`light_curves/code/heasarc_functions.py`).

The Python module contains four functions:
* `make_VOTable` — packages (identifier, coordinate) pairs and labels into a
  four-column table and writes it to a file;
* `make_hist_error_radii` — a diagnostic histogram helper (not modelled here);
* `HEASARC_get_lightcurves` — the bulk cross-match retriever: one TAP query per
  catalog, each result row turned into an event record;
* `HEASARC_get_lightcurves_forloop` — the per-object fallback retriever: one
  cone-search query per (coordinate, mission) pair, with `AttributeError`
  caught and everything else propagating.

Remote services (`pyvo` TAP, `astroquery.heasarc.Heasarc`) are external
collaborators; they are modelled as function parameters so each retriever's
behaviour is analysed for an arbitrary service response.  Python exceptions
are modelled with `Except`, and the float constant `0.1` with the rational
`1/10`.
-/

/-- A sky coordinate (an astropy `SkyCoord`): right ascension and declination
in degrees. -/
structure SkyCoord where
  ra : ℚ
  dec : ℚ
deriving DecidableEq

/-- One event record, as assembled into the pandas `DataFrame` on lines 127 and
181 of `heasarc_functions.py`: index columns `objectid`, `label`, `band`,
`time` plus value columns `flux`, `err`. -/
structure EventRecord where
  objectid : Nat
  label : String
  band : String
  time : ℚ
  flux : ℚ
  err : ℚ
deriving DecidableEq

/-- Modelled from the spec: `MultiIndexDFObject` is imported from
`data_structures`, which is not among the provided sources.  Spec sections 3
and 6 describe it as an append-only collection of event records keyed by
(objectid, label, band, time) whose single mutating operation appends a batch
of rows; rows are retained as appended (no deduplication, no reordering
relevant to the claims). -/
structure MultiIndexDFObject where
  rows : List EventRecord
deriving DecidableEq

/-- The empty store created at the start of each retrieval call. -/
def MultiIndexDFObject.empty : MultiIndexDFObject := ⟨[]⟩

/-- `df_lc.append(batch)` — append a batch of rows to the store. -/
def MultiIndexDFObject.append (df : MultiIndexDFObject) (batch : List EventRecord) :
    MultiIndexDFObject :=
  ⟨df.rows ++ batch⟩

/-! ## Bulk cross-match retriever (`HEASARC_get_lightcurves`) -/

/-- One TAP cross-match query as built by the f-string on lines 112–118:
the data interpolated into the query text is the catalog name
(`heasarc_cat[m]`) and the error-radius threshold (`max_error_radius[m]`);
the upload file is passed to `run_sync` alongside the query. -/
structure TapQuery where
  catalog : String
  maxErrorRadius : ℚ
  uploadFile : String
deriving DecidableEq

/-- One row of `fermiresulttable` (the `to_table()` of a cross-match result):
columns `name, ra, dec, error_radius, time` from the catalog and `id, name2`
from the uploaded table (pyvo lower-cases and disambiguates the two `name`
columns). -/
structure FermiResultRow where
  name : String
  ra : ℚ
  dec : ℚ
  error_radius : ℚ
  time : ℚ
  id : Nat
  name2 : String
deriving DecidableEq

/-- Line 127: how one result row becomes one event record.  `flux` and `err`
are the made-up constant `0.1`; `time` is the catalog row's `time` column;
`objectid` comes from the uploaded `id` column; `band` is the fixed literal
string `'Fermi GRB'` (note: the same literal for every catalog in the input
list); `label` comes from the uploaded `name2` column. -/
def recordOfFermiRow (row : FermiResultRow) : EventRecord :=
  { objectid := row.id
    label := row.name2
    band := "Fermi GRB"
    time := row.time
    flux := 1/10
    err := 1/10 }

/-- The loop of `HEASARC_get_lightcurves` (lines 109–130).  `service` models
`heasarc_tap.service.run_sync(...).to_table()` for an issued query.  The loop
runs `m` over the indices of `heasarc_cat`; indexing `max_error_radius[m]`
past its end raises `IndexError`, modelled by the error case.  The issued
queries are accumulated in `qs` in issue order. -/
def bulkLoop (service : TapQuery → List FermiResultRow) (xml_filename : String) :
    List String → List ℚ → MultiIndexDFObject → List TapQuery →
      Except String (MultiIndexDFObject × List TapQuery)
  | [], _, df, qs => .ok (df, qs)
  | _ :: _, [], _, _ => .error "IndexError: list index out of range"
  | cat :: cats, rad :: rads, df, qs =>
    let q : TapQuery := ⟨cat, rad, xml_filename⟩
    let fermiresulttable := service q
    let df_fermi := fermiresulttable.map recordOfFermiRow
    bulkLoop service xml_filename cats rads (df.append df_fermi) (qs ++ [q])

/-- `HEASARC_get_lightcurves(heasarc_cat, max_error_radius, xml_filename)`:
starts from an empty store, issues one cross-match query per catalog in input
order, converts every result row to an event record and appends the batch.
Returns the store together with the trace of issued queries. -/
def HEASARC_get_lightcurves (service : TapQuery → List FermiResultRow)
    (heasarc_cat : List String) (max_error_radius : List ℚ) (xml_filename : String) :
    Except String (MultiIndexDFObject × List TapQuery) :=
  bulkLoop service xml_filename heasarc_cat max_error_radius MultiIndexDFObject.empty []

/-- The queries the bulk loop issues: the i-th query pairs the i-th catalog
with the i-th threshold. -/
def bulkQueries (xml_filename : String) : List String → List ℚ → List TapQuery
  | cat :: cats, rad :: rads => ⟨cat, rad, xml_filename⟩ :: bulkQueries xml_filename cats rads
  | _, _ => []

/-- The rows the bulk loop appends: per catalog, every result row converted by
`recordOfFermiRow`, concatenated in catalog order. -/
def bulkBatch (service : TapQuery → List FermiResultRow) (xml_filename : String) :
    List String → List ℚ → List EventRecord
  | cat :: cats, rad :: rads =>
    (service ⟨cat, rad, xml_filename⟩).map recordOfFermiRow ++
      bulkBatch service xml_filename cats rads
  | _, _ => []

theorem MultiIndexDFObject.append_nil (df : MultiIndexDFObject) : df.append [] = df := by
  simp [MultiIndexDFObject.append]

theorem bulkLoop_closed_form (service : TapQuery → List FermiResultRow) (xml : String) :
    ∀ (cats : List String) (rads : List ℚ) (df : MultiIndexDFObject) (qs : List TapQuery),
      cats.length ≤ rads.length →
      bulkLoop service xml cats rads df qs =
        .ok (⟨df.rows ++ bulkBatch service xml cats rads⟩, qs ++ bulkQueries xml cats rads)
  | [], rads, df, qs, _ => by
      simp [bulkLoop, bulkBatch, bulkQueries]
  | cat :: cats, [], df, qs, h => by
      simp at h
  | cat :: cats, rad :: rads, df, qs, h => by
      have h' : cats.length ≤ rads.length := by simpa using h
      rw [bulkLoop, bulkLoop_closed_form service xml cats rads _ _ h']
      simp [MultiIndexDFObject.append, bulkBatch, bulkQueries]

theorem bulkLoop_ok_le (service : TapQuery → List FermiResultRow) (xml : String) :
    ∀ (cats : List String) (rads : List ℚ) (df : MultiIndexDFObject) (qs : List TapQuery)
      (out : MultiIndexDFObject × List TapQuery),
      bulkLoop service xml cats rads df qs = .ok out → cats.length ≤ rads.length
  | [], rads, _, _, _, _ => by simp
  | cat :: cats, [], df, qs, out, h => by
      simp [bulkLoop] at h
  | cat :: cats, rad :: rads, df, qs, out, h => by
      rw [bulkLoop] at h
      have := bulkLoop_ok_le service xml cats rads _ _ out h
      simpa using Nat.succ_le_succ this

theorem bulkQueries_length (xml : String) :
    ∀ (cats : List String) (rads : List ℚ), cats.length ≤ rads.length →
      (bulkQueries xml cats rads).length = cats.length
  | [], _, _ => by simp [bulkQueries]
  | cat :: cats, [], h => by simp at h
  | cat :: cats, rad :: rads, h => by
      have h' : cats.length ≤ rads.length := by simpa using h
      simp [bulkQueries, bulkQueries_length xml cats rads h']

theorem bulkQueries_getElem (xml : String) :
    ∀ (cats : List String) (rads : List ℚ) (i : Nat) (c : String) (r : ℚ),
      cats[i]? = some c → rads[i]? = some r →
      (bulkQueries xml cats rads)[i]? = some ⟨c, r, xml⟩
  | [], _, i, c, r, hc, _ => by simp at hc
  | cat :: cats, [], i, c, r, _, hr => by simp at hr
  | cat :: cats, rad :: rads, 0, c, r, hc, hr => by
      simp at hc hr
      simp [bulkQueries, hc, hr]
  | cat :: cats, rad :: rads, i + 1, c, r, hc, hr => by
      simp at hc hr
      simpa [bulkQueries] using bulkQueries_getElem xml cats rads i c r hc hr

/-! ## Per-object fallback retriever (`HEASARC_get_lightcurves_forloop`) -/

/-- The kinds of Python exception relevant to the fallback retriever: the
`AttributeError` produced by the known astroquery defect when a query has no
result (line 186 catches exactly this class), a `KeyError` from accessing a
missing table column, and an `IndexError` from indexing past the end of a
column or of `labels_list`. -/
inductive PyFault where
  | attributeError
  | keyError (key : String)
  | indexError
deriving DecidableEq

/-- The astropy table returned by `Heasarc.query_region`: named columns of
(here numeric) values.  `FERMIGTRIG` results carry a `TRIGGER_TIME` column,
other missions a `TIME` column. -/
structure HeasarcTable where
  cols : List (String × List ℚ)
deriving DecidableEq

/-- `results[colname]` — look up a column by name; a missing name raises
`KeyError` at the caller. -/
def HeasarcTable.getCol (t : HeasarcTable) (colname : String) : Option (List ℚ) :=
  (t.cols.find? (fun p => p.1 = colname)).map Prod.snd

/-- `results[colname][0].astype(float)` — first entry of a named column.
A missing column is a `KeyError`, an empty column an `IndexError`; neither is
an `AttributeError`, so neither is caught by the retriever.  `astype(float)`
is the identity on the modelled numeric values. -/
def getColumnFirst (results : HeasarcTable) (colname : String) : Except PyFault ℚ :=
  match results.getCol colname with
  | none => .error (.keyError colname)
  | some col =>
    match col.head? with
    | none => .error .indexError
    | some v => .ok v

/-- The body of the `try` block (lines 169–184) for one (coordinate, mission)
pair: run the cone search, read the first time value from `TRIGGER_TIME` when
the mission string equals `'FERMIGTRIG'` and from `TIME` otherwise, look up
`labels_list[objectid]` (indexed by the entry's identifier, raising
`IndexError` when out of range), and build the single-row batch of line 181.
`query` models `Heasarc.query_region(coord, mission=mission, radius=radius)`,
including any exception it raises. -/
def processPair (query : SkyCoord → String → ℚ → Except PyFault HeasarcTable)
    (labels_list : List String) (radius : ℚ)
    (objectid : Nat) (coord : SkyCoord) (mission : String) :
    Except PyFault (List EventRecord) :=
  match query coord mission radius with
  | .error e => .error e
  | .ok results =>
    match
      (if mission = "FERMIGTRIG" then
        getColumnFirst results "TRIGGER_TIME"
      else
        getColumnFirst results "TIME") with
    | .error e => .error e
    | .ok time_mjd =>
      match labels_list[objectid]? with
      | none => .error .indexError
      | some lab =>
        .ok [{ objectid := objectid, label := lab, band := mission,
               time := time_mjd, flux := 1/10, err := 1/10 }]

/-- The inner `for mcount, mission in enumerate(mission_list)` loop with its
`try/except AttributeError: pass`: an `AttributeError` skips the pair (the
store is passed on unchanged), a successful pair appends its batch, and any
other fault aborts the whole call. -/
def innerLoop (query : SkyCoord → String → ℚ → Except PyFault HeasarcTable)
    (labels_list : List String) (radius : ℚ) (objectid : Nat) (coord : SkyCoord) :
    List String → MultiIndexDFObject → Except PyFault MultiIndexDFObject
  | [], df => .ok df
  | mission :: rest, df =>
    match processPair query labels_list radius objectid coord mission with
    | .ok dfsingle => innerLoop query labels_list radius objectid coord rest (df.append dfsingle)
    | .error .attributeError => innerLoop query labels_list radius objectid coord rest df
    | .error e => .error e

/-- The outer `for objectid, coord in tqdm(coords_list)` loop. -/
def outerLoop (query : SkyCoord → String → ℚ → Except PyFault HeasarcTable)
    (labels_list : List String) (radius : ℚ) (mission_list : List String) :
    List (Nat × SkyCoord) → MultiIndexDFObject → Except PyFault MultiIndexDFObject
  | [], df => .ok df
  | (objectid, coord) :: rest, df =>
    match innerLoop query labels_list radius objectid coord mission_list df with
    | .ok df' => outerLoop query labels_list radius mission_list rest df'
    | .error e => .error e

/-- `HEASARC_get_lightcurves_forloop(coords_list, labels_list, radius,
mission_list)` (lines 134–190): starting from an empty store, query every
(coordinate, mission) pair one at a time, appending one record per successful
query; `AttributeError` is caught per pair, every other fault propagates out
of the function. -/
def HEASARC_get_lightcurves_forloop
    (query : SkyCoord → String → ℚ → Except PyFault HeasarcTable)
    (coords_list : List (Nat × SkyCoord)) (labels_list : List String)
    (radius : ℚ) (mission_list : List String) : Except PyFault MultiIndexDFObject :=
  outerLoop query labels_list radius mission_list coords_list MultiIndexDFObject.empty

/-! ## VOTable packager (`make_VOTable`) -/

/-- The four-column table built on lines 66–71: columns `name`, `ra`, `dec`,
`ID`, in input row order. -/
structure VOTable where
  name : List String
  ra : List ℚ
  dec : List ℚ
  ID : List Nat
deriving DecidableEq

/-- `astropy.table.Table({...})` column-length semantics: constructing a table
from columns of unequal lengths raises `ValueError` before any table exists
(astropy behaviour; astropy is an external collaborator of this repository). -/
def Table.mkFromColumns (name : List String) (ra dec : List ℚ) (idcol : List Nat) :
    Except String VOTable :=
  if name.length = ra.length ∧ name.length = dec.length ∧ name.length = idcol.length then
    .ok ⟨name, ra, dec, idcol⟩
  else
    .error "ValueError: Inconsistent data column lengths"

/-- A model of the files on disk: each path optionally holds a written
VOTable. -/
def FileSystem := String → Option VOTable

/-- `make_VOTable(coords_list, labels_list, sourcefilename)` (lines 53–75):
build the four-column table (`name` from `labels_list`; `ra`, `dec`, `ID`
from the (objectid, coord) pairs), write it to `sourcefilename` (overwriting),
and return that path.  The result pairs the Python return value (or raised
exception) with the file system after the call; when table construction
raises, the write on line 73 is never reached and the file system is
untouched. -/
def make_VOTable (coords_list : List (Nat × SkyCoord)) (labels_list : List String)
    (sourcefilename : String) (fs : FileSystem) : Except String String × FileSystem :=
  match Table.mkFromColumns labels_list
      (coords_list.map fun p => p.2.ra)
      (coords_list.map fun p => p.2.dec)
      (coords_list.map fun p => p.1) with
  | .error e => (.error e, fs)
  | .ok tab =>
    (.ok sourcefilename, fun path => if path = sourcefilename then some tab else fs path)

/-! ## Supporting lemmas for the bulk retriever claims -/

/-- Every row the bulk loop produces is the image of some result row under
`recordOfFermiRow`, so its band is the fixed literal and its flux and error
the placeholder constant. -/
theorem bulkBatch_mem (service : TapQuery → List FermiResultRow) (xml : String) :
    ∀ (cats : List String) (rads : List ℚ) (r : EventRecord),
      r ∈ bulkBatch service xml cats rads →
      r.band = "Fermi GRB" ∧ r.flux = 1/10 ∧ r.err = 1/10
  | [], rads, r, hr => by simp [bulkBatch] at hr
  | cat :: cats, [], r, hr => by simp [bulkBatch] at hr
  | cat :: cats, rad :: rads, r, hr => by
      rw [bulkBatch] at hr
      rcases List.mem_append.mp hr with hl | hrr
      · rcases List.mem_map.mp hl with ⟨row, _, hrow⟩
        subst hrow
        exact ⟨rfl, rfl, rfl⟩
      · exact bulkBatch_mem service xml cats rads r hrr

/-- The number of rows the bulk loop produces is the total number of result
rows over the issued queries: every match from every catalog is retained. -/
theorem bulkBatch_length (service : TapQuery → List FermiResultRow) (xml : String) :
    ∀ (cats : List String) (rads : List ℚ),
      (bulkBatch service xml cats rads).length =
        ((bulkQueries xml cats rads).map fun q => (service q).length).sum
  | [], rads => by simp [bulkBatch, bulkQueries]
  | cat :: cats, [] => by simp [bulkBatch, bulkQueries]
  | cat :: cats, rad :: rads => by
      rw [bulkBatch, bulkQueries]
      simp [bulkBatch_length service xml cats rads]

/-- Rows of a bulk run, `[]` when the run raised. -/
def bulkRowsOf (out : Except String (MultiIndexDFObject × List TapQuery)) :
    List EventRecord :=
  match out with
  | .ok p => p.1.rows
  | .error _ => []

/-! ## C1 -/

/-- C1: for parallel lists of N catalog names and N maximum error radii, the
bulk retriever `HEASARC_get_lightcurves` issues exactly N remote queries, one
per catalog, in input-list order (the trace lists queries in issue order), and
the i-th issued query interpolates the i-th catalog name together with the
i-th threshold (and the upload file). -/
theorem C1_bulk_one_query_per_catalog (service : TapQuery → List FermiResultRow)
    (cats : List String) (rads : List ℚ) (xml : String)
    (h : cats.length = rads.length) :
    ∃ df qs, HEASARC_get_lightcurves service cats rads xml = .ok (df, qs) ∧
      qs.length = cats.length ∧
      ∀ (i : Nat) (c : String) (r : ℚ), cats[i]? = some c → rads[i]? = some r →
        qs[i]? = some (TapQuery.mk c r xml) := by
  have hle : cats.length ≤ rads.length := le_of_eq h
  refine ⟨⟨bulkBatch service xml cats rads⟩, bulkQueries xml cats rads, ?_, ?_, ?_⟩
  · rw [HEASARC_get_lightcurves, bulkLoop_closed_form service xml cats rads _ _ hle]
    simp [MultiIndexDFObject.empty]
  · exact bulkQueries_length xml cats rads hle
  · exact fun i c r hc hr => bulkQueries_getElem xml cats rads i c r hc hr

/-- Witness for C1 at a concrete two-catalog input. -/
theorem C1_witness :
    (["FERMIGTRIG", "SAXGRBMGRB"].length = [(1 : ℚ), 2].length) ∧
    ∃ df qs, HEASARC_get_lightcurves (fun _ => []) ["FERMIGTRIG", "SAXGRBMGRB"]
        [(1 : ℚ), 2] "sources.xml" = .ok (df, qs) ∧
      qs.length = ["FERMIGTRIG", "SAXGRBMGRB"].length ∧
      ∀ (i : Nat) (c : String) (r : ℚ), ["FERMIGTRIG", "SAXGRBMGRB"][i]? = some c → [(1 : ℚ), 2][i]? = some r →
        qs[i]? = some (TapQuery.mk c r "sources.xml") :=
  ⟨by decide,
   C1_bulk_one_query_per_catalog (fun _ => []) ["FERMIGTRIG", "SAXGRBMGRB"]
     [(1 : ℚ), 2] "sources.xml" (by decide)⟩

/-! ## C2 -/

/-- A result row reported as a match by every catalog queried in the C2
counterexample run. -/
def demoFermiRow : FermiResultRow :=
  { name := "GRB 221009A", ra := 288, dec := 19, error_radius := 1,
    time := 59861, id := 7, name2 := "arXiv_2302" }

/-- A service for which every catalog reports the same single match. -/
def demoBulkService : TapQuery → List FermiResultRow := fun _ => [demoFermiRow]

/-- C2 counterexample: running the bulk retriever over the two catalogs
`FERMIGTRIG` and `SAXGRBMGRB`, both reporting a match for the same coordinate,
stores two rows whose band fields are BOTH the literal `"Fermi GRB"`
(line 127 hardcodes `band='Fermi GRB'` for every catalog of the loop): the
band does not identify the source catalog, and the two stored rows do not
differ in band. -/
theorem C2_counterexample :
    (bulkRowsOf (HEASARC_get_lightcurves demoBulkService ["FERMIGTRIG", "SAXGRBMGRB"]
        [1, 2] "sources.xml")).map EventRecord.band = ["Fermi GRB", "Fermi GRB"] ∧
    ∀ b1 ∈ (bulkRowsOf (HEASARC_get_lightcurves demoBulkService
        ["FERMIGTRIG", "SAXGRBMGRB"] [1, 2] "sources.xml")).map EventRecord.band,
      ∀ b2 ∈ (bulkRowsOf (HEASARC_get_lightcurves demoBulkService
        ["FERMIGTRIG", "SAXGRBMGRB"] [1, 2] "sources.xml")).map EventRecord.band,
      b1 = b2 := by
  refine ⟨rfl, ?_⟩
  intro b1 h1 b2 h2
  have e : (bulkRowsOf (HEASARC_get_lightcurves demoBulkService
      ["FERMIGTRIG", "SAXGRBMGRB"] [1, 2] "sources.xml")).map EventRecord.band =
      ["Fermi GRB", "Fermi GRB"] := rfl
  rw [e] at h1 h2
  simp at h1 h2
  rw [h1, h2]

/-- C2 amended: in the bulk retriever, every stored record's band is the SAME
fixed literal `"Fermi GRB"` regardless of which catalog produced it, and every
result row of every issued query is retained as a stored row (no
deduplication) — so two catalogs both reporting a match contribute two stored
rows, but those rows do not differ in band. -/
theorem C2_amended_band_fixed (service : TapQuery → List FermiResultRow)
    (cats : List String) (rads : List ℚ) (xml : String)
    (df : MultiIndexDFObject) (qs : List TapQuery)
    (h : HEASARC_get_lightcurves service cats rads xml = .ok (df, qs)) :
    (∀ r ∈ df.rows, r.band = "Fermi GRB") ∧
    df.rows.length = (qs.map fun q => (service q).length).sum := by
  have hle := bulkLoop_ok_le service xml cats rads _ _ _ h
  rw [HEASARC_get_lightcurves, bulkLoop_closed_form service xml cats rads _ _ hle] at h
  simp [MultiIndexDFObject.empty] at h
  obtain ⟨hdf, hqs⟩ := h
  subst hdf hqs
  exact ⟨fun r hr => (bulkBatch_mem service xml cats rads r hr).1,
    bulkBatch_length service xml cats rads⟩

/-- Witness for C2's amended claim at the counterexample input. -/
theorem C2_amended_witness :
    (HEASARC_get_lightcurves demoBulkService ["FERMIGTRIG", "SAXGRBMGRB"] [1, 2]
        "sources.xml" = .ok (⟨[recordOfFermiRow demoFermiRow, recordOfFermiRow demoFermiRow]⟩,
          [⟨"FERMIGTRIG", 1, "sources.xml"⟩, ⟨"SAXGRBMGRB", 2, "sources.xml"⟩])) ∧
    ((∀ r ∈ (⟨[recordOfFermiRow demoFermiRow, recordOfFermiRow demoFermiRow]⟩ :
        MultiIndexDFObject).rows, r.band = "Fermi GRB") ∧
      (⟨[recordOfFermiRow demoFermiRow, recordOfFermiRow demoFermiRow]⟩ :
        MultiIndexDFObject).rows.length =
        (([⟨"FERMIGTRIG", 1, "sources.xml"⟩, ⟨"SAXGRBMGRB", 2, "sources.xml"⟩] :
          List TapQuery).map fun q => (demoBulkService q).length).sum) :=
  ⟨rfl,
   C2_amended_band_fixed demoBulkService ["FERMIGTRIG", "SAXGRBMGRB"] [1, 2]
     "sources.xml" _ _ rfl⟩

/-! ## C7 -/

/-- C7: when a catalog's cross-match query returns zero rows, processing that
catalog leaves the shared store exactly as it was (the empty batch appends
nothing), raises no error, and the loop proceeds to the next catalog having
merely recorded the issued query. -/
theorem C7_zero_rows_frame (service : TapQuery → List FermiResultRow)
    (xml cat : String) (rad : ℚ) (cats : List String) (rads : List ℚ)
    (df : MultiIndexDFObject) (qs : List TapQuery)
    (h : service ⟨cat, rad, xml⟩ = []) :
    bulkLoop service xml (cat :: cats) (rad :: rads) df qs =
      bulkLoop service xml cats rads df (qs ++ [⟨cat, rad, xml⟩]) := by
  rw [bulkLoop]
  simp [h, MultiIndexDFObject.append_nil]

/-- Witness for C7: a service returning no match for the catalog processed
first leaves the store untouched for the remaining (empty) catalog list. -/
theorem C7_witness :
    ((fun _ => ([] : List FermiResultRow)) (⟨"FERMIGTRIG", 1, "sources.xml"⟩ : TapQuery)
        = []) ∧
    bulkLoop (fun _ => []) "sources.xml" ["FERMIGTRIG"] [1]
        ⟨[recordOfFermiRow demoFermiRow]⟩ [] =
      bulkLoop (fun _ => []) "sources.xml" [] []
        ⟨[recordOfFermiRow demoFermiRow]⟩ ([] ++ [⟨"FERMIGTRIG", 1, "sources.xml"⟩]) :=
  ⟨rfl,
   C7_zero_rows_frame (fun _ => []) "sources.xml" "FERMIGTRIG" 1 [] []
     ⟨[recordOfFermiRow demoFermiRow]⟩ [] rfl⟩

/-! ## Supporting lemmas for the fallback retriever claims -/

/-- Inversion: a successful (coordinate, mission) pair produces exactly the
one record of line 181: `objectid` is the entry's identifier, `label` is
`labels_list[objectid]` (the labels list indexed by that identifier), `band`
is the mission string, and flux and error are the placeholder `0.1`. -/
theorem processPair_ok_shape (query : SkyCoord → String → ℚ → Except PyFault HeasarcTable)
    (labels : List String) (radius : ℚ) (oid : Nat) (coord : SkyCoord) (mission : String)
    (recs : List EventRecord)
    (h : processPair query labels radius oid coord mission = .ok recs) :
    ∃ lab t, labels[oid]? = some lab ∧
      recs = [{ objectid := oid, label := lab, band := mission, time := t,
                flux := 1/10, err := 1/10 }] := by
  unfold processPair at h
  cases hq : query coord mission radius with
  | error e => simp only [hq] at h; exact Except.noConfusion h
  | ok results =>
    simp only [hq] at h
    cases ht : (if mission = "FERMIGTRIG" then getColumnFirst results "TRIGGER_TIME"
        else getColumnFirst results "TIME") with
    | error e => simp only [ht] at h; exact Except.noConfusion h
    | ok t =>
      simp only [ht] at h
      cases hl : labels[oid]? with
      | none => simp only [hl] at h; exact Except.noConfusion h
      | some lab =>
        simp only [hl] at h
        exact ⟨lab, t, rfl, (Except.ok.inj h).symm⟩

/-- Any predicate holding of all single-pair records and of the incoming store
holds of the store an inner (mission) loop returns. -/
theorem innerLoop_inv (P : EventRecord → Prop)
    (hP : ∀ (oid : Nat) (lab mission : String) (t : ℚ),
      P { objectid := oid, label := lab, band := mission, time := t,
          flux := 1/10, err := 1/10 })
    (query : SkyCoord → String → ℚ → Except PyFault HeasarcTable)
    (labels : List String) (radius : ℚ) (oid : Nat) (coord : SkyCoord) :
    ∀ (missions : List String) (df df' : MultiIndexDFObject),
      (∀ r ∈ df.rows, P r) →
      innerLoop query labels radius oid coord missions df = .ok df' →
      ∀ r ∈ df'.rows, P r
  | [], df, df', hdf, h => by
      rw [innerLoop] at h
      exact (Except.ok.inj h) ▸ hdf
  | mission :: rest, df, df', hdf, h => by
      rw [innerLoop] at h
      cases hp : processPair query labels radius oid coord mission with
      | ok recs =>
        simp only [hp] at h
        refine innerLoop_inv P hP query labels radius oid coord rest _ df' ?_ h
        intro r hr
        rcases List.mem_append.mp hr with hrl | hrr
        · exact hdf r hrl
        · obtain ⟨lab, t, _, hrecs⟩ := processPair_ok_shape query labels radius oid coord
            mission recs hp
          subst hrecs
          have hr' := List.eq_of_mem_singleton hrr
          subst hr'
          exact hP oid lab mission t
      | error e =>
        cases e with
        | attributeError =>
          simp only [hp] at h
          exact innerLoop_inv P hP query labels radius oid coord rest df df' hdf h
        | keyError k => simp only [hp] at h; exact Except.noConfusion h
        | indexError => simp only [hp] at h; exact Except.noConfusion h

/-- The invariant of `innerLoop_inv`, carried over the outer (coordinate)
loop. -/
theorem outerLoop_inv (P : EventRecord → Prop)
    (hP : ∀ (oid : Nat) (lab mission : String) (t : ℚ),
      P { objectid := oid, label := lab, band := mission, time := t,
          flux := 1/10, err := 1/10 })
    (query : SkyCoord → String → ℚ → Except PyFault HeasarcTable)
    (labels : List String) (radius : ℚ) (missions : List String) :
    ∀ (coords : List (Nat × SkyCoord)) (df df' : MultiIndexDFObject),
      (∀ r ∈ df.rows, P r) →
      outerLoop query labels radius missions coords df = .ok df' →
      ∀ r ∈ df'.rows, P r
  | [], df, df', hdf, h => by
      rw [outerLoop] at h
      exact (Except.ok.inj h) ▸ hdf
  | (oid, coord) :: rest, df, df', hdf, h => by
      rw [outerLoop] at h
      cases hi : innerLoop query labels radius oid coord missions df with
      | ok dfmid =>
        simp only [hi] at h
        exact outerLoop_inv P hP query labels radius missions rest dfmid df'
          (innerLoop_inv P hP query labels radius oid coord missions df dfmid hdf hi) h
      | error e => simp only [hi] at h; exact Except.noConfusion h

/-- Closed form of a fallback run over a single coordinate entry and a single
mission whose query, column access and label lookup all succeed. -/
theorem forloop_singleton (query : SkyCoord → String → ℚ → Except PyFault HeasarcTable)
    (oid : Nat) (coord : SkyCoord) (labels : List String) (radius : ℚ) (mission : String)
    (table : HeasarcTable) (col : List ℚ) (t0 : ℚ) (lab : String)
    (hq : query coord mission radius = .ok table)
    (hcol : table.getCol (if mission = "FERMIGTRIG" then "TRIGGER_TIME" else "TIME")
      = some col)
    (h0 : col.head? = some t0)
    (hl : labels[oid]? = some lab) :
    HEASARC_get_lightcurves_forloop query [(oid, coord)] labels radius [mission] =
      .ok ⟨[{ objectid := oid, label := lab, band := mission, time := t0,
              flux := 1/10, err := 1/10 }]⟩ := by
  have hget : (if mission = "FERMIGTRIG" then getColumnFirst table "TRIGGER_TIME"
      else getColumnFirst table "TIME") = .ok t0 := by
    by_cases hm : mission = "FERMIGTRIG"
    · subst hm
      rw [if_pos rfl] at hcol ⊢
      simp only [getColumnFirst, HeasarcTable.getCol] at hcol ⊢
      simp only [hcol, h0]
    · rw [if_neg hm] at hcol ⊢
      simp only [getColumnFirst, HeasarcTable.getCol] at hcol ⊢
      simp only [hcol, h0]
  have hpp : processPair query labels radius oid coord mission =
      .ok [{ objectid := oid, label := lab, band := mission, time := t0,
             flux := 1/10, err := 1/10 }] := by
    unfold processPair
    simp only [hq, hget, hl]
  simp only [HEASARC_get_lightcurves_forloop, outerLoop, innerLoop, hpp,
    MultiIndexDFObject.empty, MultiIndexDFObject.append, List.nil_append]

/-- A result table carrying both a trigger-time column and a generic time
column, each with more than one row. -/
def demoHeasarcTable : HeasarcTable :=
  ⟨[("TRIGGER_TIME", [59861, 59900]), ("TIME", [49353, 49400])]⟩

/-- A cone-search service answering every query with `demoHeasarcTable`. -/
def demoQuery : SkyCoord → String → ℚ → Except PyFault HeasarcTable :=
  fun _ _ _ => .ok demoHeasarcTable

/-- The record a successful demo fallback pair produces. -/
def demoForloopRecord : EventRecord :=
  { objectid := 0, label := "labA", band := "SAXGRBMGRB", time := 49353,
    flux := 1/10, err := 1/10 }

/-- Rows of a fallback run, `[]` when the run raised. -/
def forloopRowsOf (out : Except PyFault MultiIndexDFObject) : List EventRecord :=
  match out with
  | .ok df => df.rows
  | .error _ => []

/-! ## C3 -/

/-- C3: every event record appended to the shared store, whether by the bulk
retriever or the per-object fallback retriever, has flux `0.1` and err `0.1`
(modelled as the exact constant `1/10`), regardless of source catalog or
mission. -/
theorem C3_placeholder_flux_err
    (service : TapQuery → List FermiResultRow) (cats : List String) (rads : List ℚ)
    (xml : String) (df : MultiIndexDFObject) (qs : List TapQuery)
    (query : SkyCoord → String → ℚ → Except PyFault HeasarcTable)
    (coords : List (Nat × SkyCoord)) (labels : List String) (radius : ℚ)
    (missions : List String) (df2 : MultiIndexDFObject)
    (h1 : HEASARC_get_lightcurves service cats rads xml = .ok (df, qs))
    (h2 : HEASARC_get_lightcurves_forloop query coords labels radius missions = .ok df2) :
    (∀ r ∈ df.rows, r.flux = 1/10 ∧ r.err = 1/10) ∧
    (∀ r ∈ df2.rows, r.flux = 1/10 ∧ r.err = 1/10) := by
  constructor
  · have hle := bulkLoop_ok_le service xml cats rads _ _ _ h1
    rw [HEASARC_get_lightcurves, bulkLoop_closed_form service xml cats rads _ _ hle] at h1
    simp [MultiIndexDFObject.empty] at h1
    obtain ⟨hdf, -⟩ := h1
    subst hdf
    exact fun r hr => (bulkBatch_mem service xml cats rads r hr).2
  · exact outerLoop_inv (fun r => r.flux = 1/10 ∧ r.err = 1/10)
      (fun _ _ _ _ => ⟨rfl, rfl⟩) query labels radius missions coords
      MultiIndexDFObject.empty df2 (by simp [MultiIndexDFObject.empty]) h2

/-- Witness for C3: a one-catalog bulk run and a one-pair fallback run, both
with concrete services. -/
theorem C3_witness :
    (HEASARC_get_lightcurves demoBulkService ["FERMIGTRIG"] [1] "sources.xml" =
      .ok (⟨[recordOfFermiRow demoFermiRow]⟩, [⟨"FERMIGTRIG", 1, "sources.xml"⟩])) ∧
    (HEASARC_get_lightcurves_forloop demoQuery [(0, ⟨10, 20⟩)] ["labA"] 1 ["SAXGRBMGRB"] =
      .ok ⟨[demoForloopRecord]⟩) ∧
    ((∀ r ∈ (⟨[recordOfFermiRow demoFermiRow]⟩ : MultiIndexDFObject).rows,
        r.flux = 1/10 ∧ r.err = 1/10) ∧
      (∀ r ∈ (⟨[demoForloopRecord]⟩ : MultiIndexDFObject).rows,
        r.flux = 1/10 ∧ r.err = 1/10)) :=
  ⟨rfl, rfl,
   C3_placeholder_flux_err demoBulkService ["FERMIGTRIG"] [1] "sources.xml" _ _
     demoQuery [(0, ⟨10, 20⟩)] ["labA"] 1 ["SAXGRBMGRB"] _ rfl rfl⟩

/-! ## C4 -/

/-- C4: in the fallback retriever, the stored time value is read from the
`TRIGGER_TIME` column exactly when the mission string equals `"FERMIGTRIG"`,
and from the `TIME` column for every other mission string: the single record
of a successful pair carries the head of the column selected by that test. -/
theorem C4_time_source (query : SkyCoord → String → ℚ → Except PyFault HeasarcTable)
    (oid : Nat) (coord : SkyCoord) (labels : List String) (radius : ℚ) (mission : String)
    (table : HeasarcTable) (col : List ℚ) (t0 : ℚ) (lab : String)
    (hq : query coord mission radius = .ok table)
    (hcol : table.getCol (if mission = "FERMIGTRIG" then "TRIGGER_TIME" else "TIME")
      = some col)
    (h0 : col.head? = some t0)
    (hl : labels[oid]? = some lab) :
    ∃ df, HEASARC_get_lightcurves_forloop query [(oid, coord)] labels radius [mission] =
        .ok df ∧ df.rows.map EventRecord.time = [t0] :=
  ⟨_, forloop_singleton query oid coord labels radius mission table col t0 lab
      hq hcol h0 hl, rfl⟩

/-- Witness for C4, exercising both branches: mission `"FERMIGTRIG"` reads
`TRIGGER_TIME` (59861), mission `"SAXGRBMGRB"` reads `TIME` (49353). -/
theorem C4_witness :
    (demoQuery ⟨10, 20⟩ "FERMIGTRIG" 1 = .ok demoHeasarcTable ∧
      demoHeasarcTable.getCol
        (if "FERMIGTRIG" = "FERMIGTRIG" then "TRIGGER_TIME" else "TIME")
        = some [59861, 59900] ∧
      ∃ df, HEASARC_get_lightcurves_forloop demoQuery [(0, ⟨10, 20⟩)] ["labA"] 1
          ["FERMIGTRIG"] = .ok df ∧ df.rows.map EventRecord.time = [59861]) ∧
    (demoQuery ⟨10, 20⟩ "SAXGRBMGRB" 1 = .ok demoHeasarcTable ∧
      demoHeasarcTable.getCol
        (if "SAXGRBMGRB" = "FERMIGTRIG" then "TRIGGER_TIME" else "TIME")
        = some [49353, 49400] ∧
      ∃ df, HEASARC_get_lightcurves_forloop demoQuery [(0, ⟨10, 20⟩)] ["labA"] 1
          ["SAXGRBMGRB"] = .ok df ∧ df.rows.map EventRecord.time = [49353]) :=
  ⟨⟨rfl, rfl,
    C4_time_source demoQuery 0 ⟨10, 20⟩ ["labA"] 1 "FERMIGTRIG" demoHeasarcTable
      [59861, 59900] 59861 "labA" rfl rfl rfl rfl⟩,
   ⟨rfl, rfl,
    C4_time_source demoQuery 0 ⟨10, 20⟩ ["labA"] 1 "SAXGRBMGRB" demoHeasarcTable
      [49353, 49400] 49353 "labA" rfl rfl rfl rfl⟩⟩

/-! ## C5 -/

/-- C5: in the fallback retriever, a pair whose processing raises the
recognized `AttributeError` contributes zero rows — the store passed to the
rest of the iteration is exactly the one from before the pair — and iteration
continues with the remaining missions and with subsequent coordinate entries;
whereas a pair whose processing raises any other fault makes the whole
function return that fault immediately. -/
theorem C5_fault_policy (query : SkyCoord → String → ℚ → Except PyFault HeasarcTable)
    (labels : List String) (radius : ℚ) (oid : Nat) (coord : SkyCoord)
    (m m2 : String) (ms ms2 : List String) (f : PyFault)
    (df : MultiIndexDFObject) (rest : List (Nat × SkyCoord))
    (hskip : processPair query labels radius oid coord m = .error .attributeError)
    (hprop : processPair query labels radius oid coord m2 = .error f)
    (hf : f ≠ PyFault.attributeError) :
    (innerLoop query labels radius oid coord (m :: ms) df =
      innerLoop query labels radius oid coord ms df) ∧
    (HEASARC_get_lightcurves_forloop query ((oid, coord) :: rest) labels radius [m] =
      HEASARC_get_lightcurves_forloop query rest labels radius [m]) ∧
    (HEASARC_get_lightcurves_forloop query [(oid, coord)] labels radius (m2 :: ms2) =
      .error f) := by
  refine ⟨?_, ?_, ?_⟩
  · rw [innerLoop]
    simp only [hskip]
  · simp only [HEASARC_get_lightcurves_forloop, outerLoop, innerLoop, hskip]
  · cases f with
    | attributeError => exact absurd rfl hf
    | keyError k =>
      simp only [HEASARC_get_lightcurves_forloop, outerLoop, innerLoop, hprop]
    | indexError =>
      simp only [HEASARC_get_lightcurves_forloop, outerLoop, innerLoop, hprop]

/-- A service raising the tolerated `AttributeError` for `FERMIGTRIG` and an
untolerated `IndexError` for every other mission. -/
def demoFaultQuery : SkyCoord → String → ℚ → Except PyFault HeasarcTable :=
  fun _ mission _ =>
    if mission = "FERMIGTRIG" then .error .attributeError else .error .indexError

/-- Witness for C5 with the concrete faulting service. -/
theorem C5_witness :
    (processPair demoFaultQuery ["labA"] 1 0 ⟨10, 20⟩ "FERMIGTRIG" =
      .error PyFault.attributeError) ∧
    (processPair demoFaultQuery ["labA"] 1 0 ⟨10, 20⟩ "SAXGRBMGRB" =
      .error PyFault.indexError) ∧
    (PyFault.indexError ≠ PyFault.attributeError) ∧
    ((innerLoop demoFaultQuery ["labA"] 1 0 ⟨10, 20⟩ ["FERMIGTRIG", "SAXGRBMGRB"]
        ⟨[]⟩ = innerLoop demoFaultQuery ["labA"] 1 0 ⟨10, 20⟩ ["SAXGRBMGRB"] ⟨[]⟩) ∧
      (HEASARC_get_lightcurves_forloop demoFaultQuery [(0, ⟨10, 20⟩), (1, ⟨30, 40⟩)]
          ["labA"] 1 ["FERMIGTRIG"] =
        HEASARC_get_lightcurves_forloop demoFaultQuery [(1, ⟨30, 40⟩)]
          ["labA"] 1 ["FERMIGTRIG"]) ∧
      (HEASARC_get_lightcurves_forloop demoFaultQuery [(0, ⟨10, 20⟩)] ["labA"] 1
          ["SAXGRBMGRB", "FERMIGTRIG"] = .error PyFault.indexError)) :=
  ⟨rfl, rfl, by decide,
   C5_fault_policy demoFaultQuery ["labA"] 1 0 ⟨10, 20⟩ "FERMIGTRIG" "SAXGRBMGRB"
     ["SAXGRBMGRB"] ["FERMIGTRIG"] PyFault.indexError ⟨[]⟩ [(1, ⟨30, 40⟩)]
     rfl rfl (by decide)⟩

/-! ## C8 -/

/-- C8 counterexample: two coordinate entries whose identifiers are swapped
relative to their list positions.  The first entry `(1, …)` is positionally
paired with label `"a"` (`labels_list[0]`), but the code stores
`labels_list[objectid] = labels_list[1] = "b"` for it (line 178 indexes the
labels list by the identifier, not by position): the stored labels, in entry
order, are `["b", "a"]`, not the positionally paired `["a", "b"]`. -/
theorem C8_counterexample :
    (forloopRowsOf (HEASARC_get_lightcurves_forloop demoQuery
        [(1, ⟨10, 20⟩), (0, ⟨30, 40⟩)] ["a", "b"] 1 ["SAXGRBMGRB"])).map
      EventRecord.label = ["b", "a"] ∧
    (["b", "a"] : List String) ≠ ["a", "b"] :=
  ⟨rfl, by decide⟩

/-- C8 amended: each successful (coordinate, mission) pair yields exactly one
appended record whose `objectid` is the entry's identifier and whose `label`
is `labels_list[objectid]` — the labels list indexed by that identifier (which
matches the positionally paired label only when identifiers equal
positions). -/
theorem C8_amended_label_by_objectid
    (query : SkyCoord → String → ℚ → Except PyFault HeasarcTable)
    (oid : Nat) (coord : SkyCoord) (labels : List String) (radius : ℚ) (mission : String)
    (table : HeasarcTable) (col : List ℚ) (t0 : ℚ) (lab : String)
    (hq : query coord mission radius = .ok table)
    (hcol : table.getCol (if mission = "FERMIGTRIG" then "TRIGGER_TIME" else "TIME")
      = some col)
    (h0 : col.head? = some t0)
    (hl : labels[oid]? = some lab) :
    ∃ df, HEASARC_get_lightcurves_forloop query [(oid, coord)] labels radius [mission] =
        .ok df ∧ df.rows.length = 1 ∧
      ∀ r ∈ df.rows, r.objectid = oid ∧ r.label = lab := by
  refine ⟨_, forloop_singleton query oid coord labels radius mission table col t0 lab
    hq hcol h0 hl, rfl, ?_⟩
  intro r hr
  have hr' := List.eq_of_mem_singleton hr
  subst hr'
  exact ⟨rfl, rfl⟩

/-- Witness for C8's amended claim: the entry with identifier 1 sitting at
position 0 gets label `labels_list[1] = "b"`. -/
theorem C8_amended_witness :
    (demoQuery ⟨10, 20⟩ "SAXGRBMGRB" 1 = .ok demoHeasarcTable ∧
      demoHeasarcTable.getCol
        (if "SAXGRBMGRB" = "FERMIGTRIG" then "TRIGGER_TIME" else "TIME")
        = some [49353, 49400] ∧
      (["a", "b"] : List String)[1]? = some "b") ∧
    (∃ df, HEASARC_get_lightcurves_forloop demoQuery [(1, ⟨10, 20⟩)] ["a", "b"] 1
        ["SAXGRBMGRB"] = .ok df ∧ df.rows.length = 1 ∧
      ∀ r ∈ df.rows, r.objectid = 1 ∧ r.label = "b") :=
  ⟨⟨rfl, rfl, rfl⟩,
   C8_amended_label_by_objectid demoQuery 1 ⟨10, 20⟩ ["a", "b"] 1 "SAXGRBMGRB"
     demoHeasarcTable [49353, 49400] 49353 "b" rfl rfl rfl rfl⟩

/-! ## C9 -/

/-- C9: when the fallback retriever's query returns a result set with more
than one row, only the first row's time value is used: the pair produces
exactly one record, whose time is the head of the selected column, and the
values of all rows after the first (`t1`, `ts`) do not appear in the
result. -/
theorem C9_first_row_only (query : SkyCoord → String → ℚ → Except PyFault HeasarcTable)
    (oid : Nat) (coord : SkyCoord) (labels : List String) (radius : ℚ) (mission : String)
    (table : HeasarcTable) (t0 t1 : ℚ) (ts : List ℚ) (lab : String)
    (hq : query coord mission radius = .ok table)
    (hcol : table.getCol (if mission = "FERMIGTRIG" then "TRIGGER_TIME" else "TIME")
      = some (t0 :: t1 :: ts))
    (hl : labels[oid]? = some lab) :
    HEASARC_get_lightcurves_forloop query [(oid, coord)] labels radius [mission] =
      .ok ⟨[{ objectid := oid, label := lab, band := mission, time := t0,
              flux := 1/10, err := 1/10 }]⟩ :=
  forloop_singleton query oid coord labels radius mission table (t0 :: t1 :: ts) t0 lab
    hq hcol rfl hl

/-- Witness for C9: the two-row `TIME` column `[49353, 49400]` yields one
record with time 49353; 49400 is ignored. -/
theorem C9_witness :
    (demoQuery ⟨10, 20⟩ "SAXGRBMGRB" 1 = .ok demoHeasarcTable ∧
      demoHeasarcTable.getCol
        (if "SAXGRBMGRB" = "FERMIGTRIG" then "TRIGGER_TIME" else "TIME")
        = some (49353 :: 49400 :: []) ∧
      (["labA"] : List String)[0]? = some "labA") ∧
    HEASARC_get_lightcurves_forloop demoQuery [(0, ⟨10, 20⟩)] ["labA"] 1 ["SAXGRBMGRB"] =
      .ok ⟨[demoForloopRecord]⟩ :=
  ⟨⟨rfl, rfl, rfl⟩,
   C9_first_row_only demoQuery 0 ⟨10, 20⟩ ["labA"] 1 "SAXGRBMGRB" demoHeasarcTable
     49353 49400 [] "labA" rfl rfl rfl⟩

/-! ## C6 -/

/-- C6: given N (identifier, coordinate) pairs and N labels, `make_VOTable`
writes to the destination path a table with exactly the four columns `name`,
`ra`, `dec`, `ID`, whose rows are the inputs in input order (reading the file
back yields the label, ra, dec and identifier of the i-th input in the i-th
row), and it returns the destination path it was given. -/
theorem C6_votable_round_trip (coords : List (Nat × SkyCoord)) (labels : List String)
    (path : String) (fs : FileSystem) (h : labels.length = coords.length) :
    ∃ fs', make_VOTable coords labels path fs = (.ok path, fs') ∧
      fs' path = some ⟨labels, coords.map fun p => p.2.ra,
        coords.map fun p => p.2.dec, coords.map fun p => p.1⟩ := by
  have hc : Table.mkFromColumns labels (coords.map fun p => p.2.ra)
      (coords.map fun p => p.2.dec) (coords.map fun p => p.1) =
      .ok ⟨labels, coords.map fun p => p.2.ra, coords.map fun p => p.2.dec,
        coords.map fun p => p.1⟩ := by
    unfold Table.mkFromColumns
    rw [if_pos]
    refine ⟨?_, ?_, ?_⟩ <;> simp [h]
  refine ⟨fun q => if q = path then
      some ⟨labels, coords.map fun p => p.2.ra, coords.map fun p => p.2.dec,
        coords.map fun p => p.1⟩ else fs q, ?_, ?_⟩
  · unfold make_VOTable
    rw [hc]
  · simp

/-- Witness for C6 with one concrete coordinate entry. -/
theorem C6_witness :
    ((["src1"] : List String).length = ([(7, ⟨10, 20⟩)] : List (Nat × SkyCoord)).length) ∧
    ∃ fs', make_VOTable [(7, ⟨10, 20⟩)] ["src1"] "sources.xml" (fun _ => none) =
        (.ok "sources.xml", fs') ∧
      fs' "sources.xml" = some ⟨["src1"], [(7, (⟨10, 20⟩ : SkyCoord))].map fun p => p.2.ra,
        [(7, (⟨10, 20⟩ : SkyCoord))].map fun p => p.2.dec,
        [(7, (⟨10, 20⟩ : SkyCoord))].map fun p => p.1⟩ :=
  ⟨by decide,
   C6_votable_round_trip [(7, ⟨10, 20⟩)] ["src1"] "sources.xml" (fun _ => none)
     (by decide)⟩

/-! ## C10 -/

/-- C10: when the labels list and the coordinates list have different lengths,
`make_VOTable` fails during table construction (the astropy `Table`
constructor rejects columns of unequal lengths) before the write on line 73 is
reached, so the file system — in particular the destination path — is exactly
as it was before the call. -/
theorem C10_mismatched_lengths (coords : List (Nat × SkyCoord)) (labels : List String)
    (path : String) (fs : FileSystem) (h : labels.length ≠ coords.length) :
    make_VOTable coords labels path fs =
      (.error "ValueError: Inconsistent data column lengths", fs) := by
  have hcond : ¬(labels.length = (coords.map fun p => p.2.ra).length ∧
      labels.length = (coords.map fun p => p.2.dec).length ∧
      labels.length = (coords.map fun p => p.1).length) := by
    rw [List.length_map]
    exact fun hc => h hc.1
  unfold make_VOTable Table.mkFromColumns
  rw [if_neg hcond]

/-- Witness for C10: two labels against one coordinate entry leave the file
system untouched and surface the construction error. -/
theorem C10_witness :
    ((["a", "b"] : List String).length ≠ ([(7, ⟨10, 20⟩)] : List (Nat × SkyCoord)).length) ∧
    make_VOTable [(7, ⟨10, 20⟩)] ["a", "b"] "sources.xml" (fun _ => none) =
      (.error "ValueError: Inconsistent data column lengths", fun _ => none) :=
  ⟨by decide,
   C10_mismatched_lengths [(7, ⟨10, 20⟩)] ["a", "b"] "sources.xml" (fun _ => none)
     (by decide)⟩
